import Mathlib

/-!
Verification of the statistics aggregation model of `tools/zanata/zanata_stats.py`
(the `User` class: merging raw Zanata contribution payloads, activity filtering,
ordering, flattening and serialization), together with a spec-modelled per-scope
rollup (`populate_total_stats`) whose implementation module
`openstack_i18n/zanata/zanata_stats.py` is exercised only through its tests here.

Python dicts are embedded as association lists `List (String × Int)` preserving
insertion order; `d[k] = v` updates in place when `k` is present and appends
otherwise; `sum(d.values())` sums the stored values; truthiness of a dict is
non-emptiness, and `dict.get(k)` on a missing key yields `none`.
-/

/-- A Python dict from counter name to integer count, in insertion order. -/
abbrev StatsMap := List (String × Int)

/-- `d.get(k, dflt)` on a Python dict. -/
def lookupD (m : StatsMap) (k : String) (dflt : Int) : Int :=
  match m.lookup k with
  | some v => v
  | none => dflt

/-- `sum(d.values())` on a Python dict. -/
def sumValues (m : StatsMap) : Int :=
  (m.map Prod.snd).sum

/-- `d[k] = v` on a Python dict: update in place when the key exists, append otherwise. -/
def dictSet (m : StatsMap) (k : String) (v : Int) : StatsMap :=
  if (m.lookup k).isSome then
    m.map (fun kv => if kv.1 = k then (k, v) else kv)
  else
    m ++ [(k, v)]

/-- One element of the payload's `contributions` list: a locale tag plus the two
optional stat-group dicts (`none` embeds an absent key, `some []` an empty dict). -/
structure Contribution where
  locale : String
  translationStats : Option StatsMap
  reviewStats : Option StatsMap
deriving DecidableEq, Repr

/-- The raw per-scope statistics payload returned by the Zanata REST API. -/
structure ZanataStats where
  username : String
  contributions : List Contribution
deriving DecidableEq, Repr

/-- The `User` object of `tools/zanata/zanata_stats.py`: user id, language code,
and the two accumulated stat dicts (both `{}` after `__init__`). -/
structure User where
  user_id : String
  lang : String
  translation_stats : StatsMap
  review_stats : StatsMap
deriving DecidableEq, Repr

/-- `User.__init__(user_id, language_code)`. -/
def User.init (user_id language_code : String) : User :=
  { user_id := user_id, lang := language_code,
    translation_stats := [], review_stats := [] }

/-- The entry `read_from_zanata_stats` acts on: the head of the list comprehension
`[d for d in zanata_stats['contributions'] if d['locale'] == self.lang]`. -/
def matchedEntry (lang : String) (z : ZanataStats) : Option Contribution :=
  (z.contributions.filter (fun d => d.locale = lang)).head?

/-- One `if group_stats:` block of `read_from_zanata_stats`: a present non-empty
dict gets a `total` key (the sum of its values, computed before the assignment)
and replaces the stored dict; `None` or `{}` leaves the stored dict alone. -/
def applyGroup (o : Option StatsMap) (old : StatsMap) : StatsMap :=
  match o with
  | some m => if m.isEmpty then old else dictSet m "total" (sumValues m)
  | none => old

/-- The effect of `read_from_zanata_stats` once an entry has been selected
(lines 181-189): both stat groups processed independently. -/
def applyEntry (u : User) (e : Contribution) : User :=
  { u with
    translation_stats := applyGroup e.translationStats u.translation_stats,
    review_stats := applyGroup e.reviewStats u.review_stats }

/-- `User.read_from_zanata_stats(zanata_stats)`: select the first contribution
entry whose locale equals `self.lang` (early return when none matches), then
fold its stat groups into the object. -/
def User.read_from_zanata_stats (u : User) (z : ZanataStats) : User :=
  match (z.contributions.filter (fun d => d.locale = u.lang)).head? with
  | none => u
  | some s => applyEntry u s

/-- `User.needs_output(include_no_activities)`. -/
def User.needs_output (u : User) (include_no_activities : Bool) : Bool :=
  if include_no_activities then
    true
  else if !u.translation_stats.isEmpty || !u.review_stats.isEmpty then
    true
  else
    false

/-- `User.__lt__(other)`: language code first, then user id. -/
def User.lt (a b : User) : Prop :=
  if a.lang ≠ b.lang then a.lang < b.lang else a.user_id < b.user_id

instance (a b : User) : Decidable (User.lt a b) := by
  unfold User.lt
  infer_instance

/-- A cell of the flattened tabular row: user id and language are strings, the
eight counters are integers. -/
inductive Cell where
  | str : String → Cell
  | num : Int → Cell
deriving DecidableEq, Repr

/-- `User.get_flattened_data_title()`: the fixed CSV header row. -/
def User.get_flattened_data_title : List String :=
  [ "user_id",
    "lang",
    "translation-total",
    "translated",
    "needReview",
    "approved",
    "rejected",
    "review-total",
    "review-approved",
    "review-rejected" ]

/-- `User.convert_to_flattened_data()`: the fixed-column row, every missing
counter defaulted to `0` via `dict.get(key, 0)`. -/
def User.convert_to_flattened_data (u : User) : List Cell :=
  [ .str u.user_id,
    .str u.lang,
    .num (lookupD u.translation_stats "total" 0),
    .num (lookupD u.translation_stats "translated" 0),
    .num (lookupD u.translation_stats "needReview" 0),
    .num (lookupD u.translation_stats "approved" 0),
    .num (lookupD u.translation_stats "rejected" 0),
    .num (lookupD u.review_stats "total" 0),
    .num (lookupD u.review_stats "approved" 0),
    .num (lookupD u.review_stats "rejected" 0) ]

/-- The four canonical translation counters of a `translation-stats` map. -/
def canonicalTranslationKeys : List String :=
  ["translated", "needReview", "approved", "rejected"]

/-- The two canonical review counters of a `review-stats` map. -/
def canonicalReviewKeys : List String :=
  ["approved", "rejected"]

/-- Modelled from the spec: the `ContributionRecord`-shaped pair of stats maps a
per-scope aggregate stores for one (project, version) scope; the implementation
module `openstack_i18n/zanata/zanata_stats.py` is absent from the sources, only
its tests are. -/
structure ScopeRecord where
  translation : StatsMap
  review : StatsMap
deriving DecidableEq, Repr

/-- Modelled from the spec: the per-scope `UserAggregate` — identity
`(userId, languageCode)`, a mapping from (project, version) scopes to records,
and the sentinel rolled-up totals entry, absent until rollup is invoked. -/
structure UserAgg where
  user_id : String
  lang : String
  scopes : List (String × String × ScopeRecord)
  totals : Option ScopeRecord
deriving DecidableEq, Repr

/-- Modelled from the spec: the rollup of one stat group. If no scope has a
non-empty map for the group the result is the empty mapping; otherwise an
accumulator over all canonical counters is filled with the sum of that counter
over every scope (a key missing from a scope's map contributes zero), and
`total` is recomputed as the sum of the accumulated counters. -/
def rollupGroup (canon : List String) (maps : List StatsMap) : StatsMap :=
  if maps.all List.isEmpty then
    []
  else
    let counters := canon.map (fun k => (k, (maps.map (fun m => lookupD m k 0)).sum))
    counters ++ [("total", (counters.map Prod.snd).sum)]

/-- Modelled from the spec: `computeTotal(aggregate)` / `populate_total_stats` —
iterate every (project, version) scope currently stored (the sentinel totals
entry is held apart, so it never includes itself), roll up the two stat groups
independently, and store the result as the sentinel entry, overwriting any
prior computation. -/
def UserAgg.rolledRecord (u : UserAgg) : ScopeRecord :=
  { translation :=
      rollupGroup canonicalTranslationKeys (u.scopes.map (fun s => s.2.2.translation)),
    review :=
      rollupGroup canonicalReviewKeys (u.scopes.map (fun s => s.2.2.review)) }

/-- Modelled from the spec: the rollup stores the result under the sentinel
scope key, overwriting any prior computation. -/
def UserAgg.populate_total_stats (u : UserAgg) : UserAgg :=
  { u with totals := some u.rolledRecord }

/-- A value of the serialized record: a string field or a stat-group dict. -/
inductive SValue where
  | str : String → SValue
  | map : StatsMap → SValue
deriving DecidableEq, Repr

/-- `User.convert_to_serializable_data()`: the structured record, a dict with
exactly the four keys in source order. -/
def User.convert_to_serializable_data (u : User) : List (String × SValue) :=
  [ ("user_id", .str u.user_id),
    ("lang", .str u.lang),
    ("translation-stats", .map u.translation_stats),
    ("review-stats", .map u.review_stats) ]

/-! Concrete fixtures, taken from the data-format docstring of
`read_from_zanata_stats` and from the shipped test data, used to instantiate
the theorems below at explicit inputs. -/

/-- The sample payload shown in the `read_from_zanata_stats` docstring. -/
def samplePayload : ZanataStats :=
  { username := "amotoki",
    contributions := [
      { locale := "ja",
        translationStats := some
          [("translated", 7360), ("needReview", 0), ("approved", 152), ("rejected", 0)],
        reviewStats := some [("approved", 220), ("rejected", 0)] } ] }

/-- A payload carrying only translation activity for `lang-a`. -/
def translationOnlyPayload : ZanataStats :=
  { username := "user-a",
    contributions := [
      { locale := "lang-a",
        translationStats := some
          [("translated", 1460), ("needReview", 5), ("approved", 459), ("rejected", 2)],
        reviewStats := none } ] }

/-- A payload carrying only review activity for `lang-a`. -/
def reviewOnlyPayload : ZanataStats :=
  { username := "user-a",
    contributions := [
      { locale := "lang-a",
        translationStats := none,
        reviewStats := some [("approved", 250), ("rejected", 31)] } ] }

/-- A payload with two `lang-a` entries, to exhibit first-match selection. -/
def doubleEntryPayload : ZanataStats :=
  { username := "user-a",
    contributions := [
      { locale := "lang-a",
        translationStats := some [("translated", 3)],
        reviewStats := none },
      { locale := "lang-a",
        translationStats := some [("translated", 99)],
        reviewStats := some [("approved", 99)] } ] }

/-- A payload whose matched entry binds both stat groups to empty dicts. -/
def emptyGroupsPayload : ZanataStats :=
  { username := "user-a",
    contributions := [
      { locale := "lang-a", translationStats := some [], reviewStats := some [] } ] }

/-- The same entry with the `translation-stats` key absent instead of empty. -/
def absentTranslationPayload : ZanataStats :=
  { username := "user-a",
    contributions := [
      { locale := "lang-a", translationStats := none, reviewStats := some [] } ] }

/-- A payload with no entry for `lang-a`. -/
def otherLanguagePayload : ZanataStats :=
  { username := "user-a",
    contributions := [
      { locale := "other",
        translationStats := some [("translated", 3)],
        reviewStats := some [("approved", 1)] } ] }

/-- The per-scope aggregate built by the shipped test `_setup_stats`: three
scopes whose stored maps already carry their per-scope `total` keys. -/
def sampleAgg : UserAgg :=
  { user_id := "user-a",
    lang := "lang-a",
    scopes := [
      ("proj-1", "master",
        { translation :=
            [("translated", 3), ("needReview", 6), ("approved", 27), ("rejected", 1),
             ("total", 37)],
          review := [("approved", 277), ("rejected", 10), ("total", 287)] }),
      ("proj-1", "stable-ocata",
        { translation :=
            [("translated", 1460), ("needReview", 5), ("approved", 459), ("rejected", 2),
             ("total", 1926)],
          review := [] }),
      ("proj-2", "master",
        { translation := [],
          review := [("approved", 250), ("rejected", 31), ("total", 281)] })],
    totals := none }

/-! ### Helper lemmas -/

theorem read_of_matched (u : User) (z : ZanataStats) (e : Contribution)
    (h : matchedEntry u.lang z = some e) :
    u.read_from_zanata_stats z = applyEntry u e := by
  unfold User.read_from_zanata_stats
  unfold matchedEntry at h
  rw [h]

theorem read_of_no_match (u : User) (z : ZanataStats)
    (h : matchedEntry u.lang z = none) :
    u.read_from_zanata_stats z = u := by
  unfold User.read_from_zanata_stats
  unfold matchedEntry at h
  rw [h]

theorem lookup_eq_none_of_not_mem (m : StatsMap) (k : String)
    (h : k ∉ m.map Prod.fst) : m.lookup k = none := by
  induction m with
  | nil => rfl
  | cons kv rest ih =>
    simp only [List.map_cons, List.mem_cons, not_or] at h
    simp [List.lookup, beq_eq_false_iff_ne.mpr h.1, ih h.2]

theorem dictSet_append_of_not_mem (m : StatsMap) (k : String) (v : Int)
    (h : k ∉ m.map Prod.fst) : dictSet m k v = m ++ [(k, v)] := by
  unfold dictSet
  rw [lookup_eq_none_of_not_mem m k h]
  rfl

theorem applyGroup_some_of_ne_nil (m old : StatsMap) (h : m ≠ []) :
    applyGroup (some m) old = dictSet m "total" (sumValues m) := by
  cases m with
  | nil => exact absurd rfl h
  | cons kv rest => rfl

/-! ### C1 -/

/-- C1: for a payload whose matched entry carries a `translation-stats` dict of
four counters `a, b, c, d` under distinct keys with no `total` key, the merge
stores that dict with all original keys and values unchanged followed by a
`total` key bound to exactly `a + b + c + d`; a two-counter `review-stats`
dict likewise receives `total = p + q`. -/
theorem merge_computes_totals (u : User) (z : ZanataStats) (e : Contribution)
    (hm : matchedEntry u.lang z = some e) :
    (∀ (k1 k2 k3 k4 : String) (a b c d : Int),
      e.translationStats = some [(k1, a), (k2, b), (k3, c), (k4, d)] →
      List.Nodup [k1, k2, k3, k4, "total"] →
      (u.read_from_zanata_stats z).translation_stats
        = [(k1, a), (k2, b), (k3, c), (k4, d), ("total", a + b + c + d)]) ∧
    (∀ (j1 j2 : String) (p q : Int),
      e.reviewStats = some [(j1, p), (j2, q)] →
      List.Nodup [j1, j2, "total"] →
      (u.read_from_zanata_stats z).review_stats
        = [(j1, p), (j2, q), ("total", p + q)]) := by
  rw [read_of_matched u z e hm]
  constructor
  · intro k1 k2 k3 k4 a b c d hts hnd
    have hmem : "total" ∉ ([(k1, a), (k2, b), (k3, c), (k4, d)] : StatsMap).map Prod.fst := by
      simp only [List.nodup_cons, List.mem_cons, List.not_mem_nil, or_false, not_or] at hnd
      simp only [List.map_cons, List.map_nil, List.mem_cons, List.not_mem_nil, or_false, not_or]
      refine ⟨?_, ?_, ?_, ?_⟩ <;> intro hk
      · exact hnd.1.2.2.2 hk.symm
      · exact hnd.2.1.2.2 hk.symm
      · exact hnd.2.2.1.2 hk.symm
      · exact hnd.2.2.2.1 hk.symm
    show applyGroup e.translationStats u.translation_stats = _
    rw [hts, applyGroup_some_of_ne_nil _ _ (by simp),
        dictSet_append_of_not_mem _ _ _ hmem]
    simp [sumValues, add_assoc]
  · intro j1 j2 p q hrs hnd
    have hmem : "total" ∉ ([(j1, p), (j2, q)] : StatsMap).map Prod.fst := by
      simp only [List.nodup_cons, List.mem_cons, List.not_mem_nil, or_false, not_or] at hnd
      simp only [List.map_cons, List.map_nil, List.mem_cons, List.not_mem_nil, or_false, not_or]
      exact ⟨fun hk => hnd.1.2 hk.symm, fun hk => hnd.2.1 hk.symm⟩
    show applyGroup e.reviewStats u.review_stats = _
    rw [hrs, applyGroup_some_of_ne_nil _ _ (by simp),
        dictSet_append_of_not_mem _ _ _ hmem]
    simp [sumValues, add_assoc]

/-- Witness for C1 at the docstring's sample payload. -/
theorem merge_computes_totals_witness :
    ((User.init "amotoki" "ja").read_from_zanata_stats samplePayload).translation_stats
      = [("translated", 7360), ("needReview", 0), ("approved", 152), ("rejected", 0),
         ("total", 7512)]
    ∧ ((User.init "amotoki" "ja").read_from_zanata_stats samplePayload).review_stats
      = [("approved", 220), ("rejected", 0), ("total", 220)] := by
  have h := merge_computes_totals (User.init "amotoki" "ja") samplePayload
      { locale := "ja",
        translationStats := some
          [("translated", 7360), ("needReview", 0), ("approved", 152), ("rejected", 0)],
        reviewStats := some [("approved", 220), ("rejected", 0)] }
      (by decide)
  constructor
  · have h1 := h.1 "translated" "needReview" "approved" "rejected" 7360 0 152 0 rfl (by decide)
    rw [h1]
    norm_num
  · have h2 := h.2 "approved" "rejected" 220 0 rfl (by decide)
    rw [h2]
    norm_num

/-! ### C4 -/

/-- C4: merging a payload none of whose contribution entries carries the
aggregate's language code leaves the aggregate entirely unchanged — no entry
is created and no error is raised. -/
theorem merge_no_match_is_noop (u : User) (z : ZanataStats)
    (h : ∀ d ∈ z.contributions, d.locale ≠ u.lang) :
    u.read_from_zanata_stats z = u := by
  apply read_of_no_match
  unfold matchedEntry
  have hf : z.contributions.filter (fun d => d.locale = u.lang) = [] := by
    rw [List.filter_eq_nil_iff]
    intro d hd
    simp [h d hd]
  rw [hf]
  rfl

/-- Witness for C4: a payload for another language is a no-op. -/
theorem merge_no_match_is_noop_witness :
    (User.init "user-a" "lang-a").read_from_zanata_stats otherLanguagePayload
      = User.init "user-a" "lang-a" :=
  merge_no_match_is_noop (User.init "user-a" "lang-a") otherLanguagePayload (by decide)

/-! ### C9 -/

/-- C9: when the contributions list holds several entries for the aggregate's
language, the merge acts on exactly the first such entry in list order, and
every entry after it contributes nothing to the result. -/
theorem merge_uses_first_match (u : User) (n : String)
    (pre post post2 : List Contribution) (e : Contribution)
    (hpre : ∀ d ∈ pre, d.locale ≠ u.lang) (he : e.locale = u.lang) :
    u.read_from_zanata_stats ⟨n, pre ++ e :: post⟩ = applyEntry u e
    ∧ u.read_from_zanata_stats ⟨n, pre ++ e :: post⟩
        = u.read_from_zanata_stats ⟨n, pre ++ e :: post2⟩ := by
  have hm : ∀ (l : List Contribution),
      matchedEntry u.lang ⟨n, pre ++ e :: l⟩ = some e := by
    intro l
    unfold matchedEntry
    have h1 : pre.filter (fun d => d.locale = u.lang) = [] := by
      rw [List.filter_eq_nil_iff]
      intro d hd
      simp [hpre d hd]
    show ((pre ++ e :: l).filter (fun d => d.locale = u.lang)).head? = some e
    rw [List.filter_append, h1, List.filter_cons_of_pos (by simp [he])]
    rfl
  exact ⟨read_of_matched _ _ _ (hm post),
    by rw [read_of_matched _ _ _ (hm post), read_of_matched _ _ _ (hm post2)]⟩

/-- Witness for C9 on a payload with two entries for the same language: only
the first one is folded in. -/
theorem merge_uses_first_match_witness :
    (User.init "user-a" "lang-a").read_from_zanata_stats doubleEntryPayload
      = applyEntry (User.init "user-a" "lang-a")
          { locale := "lang-a", translationStats := some [("translated", 3)],
            reviewStats := none }
    ∧ (User.init "user-a" "lang-a").read_from_zanata_stats doubleEntryPayload
        = (User.init "user-a" "lang-a").read_from_zanata_stats
            { username := "user-a",
              contributions := [
                { locale := "lang-a", translationStats := some [("translated", 3)],
                  reviewStats := none }] } :=
  merge_uses_first_match (User.init "user-a" "lang-a") "user-a" []
    [{ locale := "lang-a", translationStats := some [("translated", 99)],
       reviewStats := some [("approved", 99)] }] []
    { locale := "lang-a", translationStats := some [("translated", 3)],
      reviewStats := none }
    (by intro d hd; cases hd) rfl

/-! ### C10 -/

/-- C10: a matched entry binding a stat-group key to an empty dict is handled
exactly as if the key were absent — the merge result is the same as for the
key-less entry, the previously stored map for that group is retained, and no
`total` is computed for it; this holds for both stat groups. -/
theorem merge_empty_group_like_absent (u : User) (z zt zr : ZanataStats)
    (e : Contribution) (hm : matchedEntry u.lang z = some e) :
    (e.translationStats = some [] →
      matchedEntry u.lang zt = some { e with translationStats := none } →
      u.read_from_zanata_stats z = u.read_from_zanata_stats zt
      ∧ (u.read_from_zanata_stats z).translation_stats = u.translation_stats) ∧
    (e.reviewStats = some [] →
      matchedEntry u.lang zr = some { e with reviewStats := none } →
      u.read_from_zanata_stats z = u.read_from_zanata_stats zr
      ∧ (u.read_from_zanata_stats z).review_stats = u.review_stats) := by
  rw [read_of_matched u z e hm]
  constructor
  · intro ht hmt
    rw [read_of_matched u zt _ hmt]
    constructor
    · simp [applyEntry, applyGroup, ht]
    · show applyGroup e.translationStats u.translation_stats = _
      rw [ht]
      rfl
  · intro hr hmr
    rw [read_of_matched u zr _ hmr]
    constructor
    · simp [applyEntry, applyGroup, hr]
    · show applyGroup e.reviewStats u.review_stats = _
      rw [hr]
      rfl

/-- Witness for C10 at a payload whose matched entry binds both groups to
empty dicts: merging it equals merging the key-less variant and keeps the
stored maps. -/
theorem merge_empty_group_like_absent_witness :
    (User.init "user-a" "lang-a").read_from_zanata_stats emptyGroupsPayload
      = (User.init "user-a" "lang-a").read_from_zanata_stats absentTranslationPayload
    ∧ ((User.init "user-a" "lang-a").read_from_zanata_stats emptyGroupsPayload).translation_stats
        = (User.init "user-a" "lang-a").translation_stats := by
  have h := merge_empty_group_like_absent (User.init "user-a" "lang-a")
      emptyGroupsPayload absentTranslationPayload emptyGroupsPayload
      { locale := "lang-a", translationStats := some [], reviewStats := some [] }
      (by decide)
  exact h.1 rfl (by decide)

/-! ### C3 -/

theorem read_lang (u : User) (z : ZanataStats) :
    (u.read_from_zanata_stats z).lang = u.lang := by
  unfold User.read_from_zanata_stats
  split <;> rfl

theorem applyGroup_applyGroup (o : Option StatsMap) (old : StatsMap) :
    applyGroup o (applyGroup o old) = applyGroup o old := by
  cases o with
  | none => rfl
  | some m =>
    cases m with
    | nil => rfl
    | cons kv rest => rfl

theorem applyEntry_idem (u : User) (e : Contribution) :
    applyEntry (applyEntry u e) e = applyEntry u e := by
  unfold applyEntry
  simp [applyGroup_applyGroup]

/-- C3 counterexample: merging a translation-only payload and then a
review-only payload for the same scope does not produce the state a single
merge of the second payload would — the first payload's translation block
survives, so the replacement is not a whole-record last-write-wins. -/
theorem merge_not_whole_record_lww :
    ((User.init "user-a" "lang-a").read_from_zanata_stats
        translationOnlyPayload).read_from_zanata_stats reviewOnlyPayload
      ≠ (User.init "user-a" "lang-a").read_from_zanata_stats reviewOnlyPayload := by
  decide

/-- C3 amended: re-merging an identical payload changes nothing (idempotence,
no error), and the overwrite is per stat group: a group the second payload's
matched entry carries as a non-empty dict ends up exactly as a single merge of
the second payload would leave it, while a group the second payload omits or
leaves empty retains the previously stored map. -/
theorem merge_idempotent_and_groupwise_lww :
    (∀ (u : User) (z : ZanataStats),
      (u.read_from_zanata_stats z).read_from_zanata_stats z
        = u.read_from_zanata_stats z)
    ∧ (∀ (u : User) (z1 z2 : ZanataStats) (e : Contribution) (m : StatsMap),
        matchedEntry u.lang z2 = some e →
        (e.translationStats = some m → m ≠ [] →
          ((u.read_from_zanata_stats z1).read_from_zanata_stats z2).translation_stats
            = (u.read_from_zanata_stats z2).translation_stats)
        ∧ (e.reviewStats = some m → m ≠ [] →
          ((u.read_from_zanata_stats z1).read_from_zanata_stats z2).review_stats
            = (u.read_from_zanata_stats z2).review_stats))
    ∧ (∀ (u : User) (z1 z2 : ZanataStats) (e : Contribution),
        matchedEntry u.lang z2 = some e →
        ((e.translationStats = none ∨ e.translationStats = some []) →
          ((u.read_from_zanata_stats z1).read_from_zanata_stats z2).translation_stats
            = (u.read_from_zanata_stats z1).translation_stats)
        ∧ ((e.reviewStats = none ∨ e.reviewStats = some []) →
          ((u.read_from_zanata_stats z1).read_from_zanata_stats z2).review_stats
            = (u.read_from_zanata_stats z1).review_stats)) := by
  refine ⟨?_, ?_, ?_⟩
  · intro u z
    cases h : matchedEntry u.lang z with
    | none =>
      rw [read_of_no_match u z h]
      exact read_of_no_match u z h
    | some e =>
      rw [read_of_matched u z e h]
      rw [read_of_matched (applyEntry u e) z e (by rw [show (applyEntry u e).lang = u.lang from rfl]; exact h)]
      exact applyEntry_idem u e
  · intro u z1 z2 e m h
    have h1 : matchedEntry (u.read_from_zanata_stats z1).lang z2 = some e := by
      rw [read_lang]; exact h
    rw [read_of_matched _ _ _ h1, read_of_matched _ _ _ h]
    constructor
    · intro ht hne
      show applyGroup e.translationStats _ = applyGroup e.translationStats _
      rw [ht, applyGroup_some_of_ne_nil _ _ hne, applyGroup_some_of_ne_nil _ _ hne]
    · intro hr hne
      show applyGroup e.reviewStats _ = applyGroup e.reviewStats _
      rw [hr, applyGroup_some_of_ne_nil _ _ hne, applyGroup_some_of_ne_nil _ _ hne]
  · intro u z1 z2 e h
    have h1 : matchedEntry (u.read_from_zanata_stats z1).lang z2 = some e := by
      rw [read_lang]; exact h
    rw [read_of_matched _ _ _ h1]
    constructor
    · rintro (ht | ht) <;>
        · show applyGroup e.translationStats _ = _
          rw [ht]
          rfl
    · rintro (hr | hr) <;>
        · show applyGroup e.reviewStats _ = _
          rw [hr]
          rfl

/-- Witness for C3 as amended: idempotence and the per-group overwrite at the
concrete payloads of the counterexample. -/
theorem merge_idempotent_and_groupwise_lww_witness :
    ((User.init "user-a" "lang-a").read_from_zanata_stats
        reviewOnlyPayload).read_from_zanata_stats reviewOnlyPayload
      = (User.init "user-a" "lang-a").read_from_zanata_stats reviewOnlyPayload
    ∧ (((User.init "user-a" "lang-a").read_from_zanata_stats
          translationOnlyPayload).read_from_zanata_stats reviewOnlyPayload).review_stats
        = ((User.init "user-a" "lang-a").read_from_zanata_stats reviewOnlyPayload).review_stats
    ∧ (((User.init "user-a" "lang-a").read_from_zanata_stats
          translationOnlyPayload).read_from_zanata_stats reviewOnlyPayload).translation_stats
        = ((User.init "user-a" "lang-a").read_from_zanata_stats
            translationOnlyPayload).translation_stats := by
  have h := merge_idempotent_and_groupwise_lww
  refine ⟨h.1 (User.init "user-a" "lang-a") reviewOnlyPayload, ?_, ?_⟩
  · exact (h.2.1 (User.init "user-a" "lang-a") translationOnlyPayload reviewOnlyPayload
      { locale := "lang-a", translationStats := none,
        reviewStats := some [("approved", 250), ("rejected", 31)] }
      [("approved", 250), ("rejected", 31)] (by decide)).2 rfl (by decide)
  · exact ((h.2.2 (User.init "user-a" "lang-a") translationOnlyPayload reviewOnlyPayload
      { locale := "lang-a", translationStats := none,
        reviewStats := some [("approved", 250), ("rejected", 31)] }
      (by decide)).1 (Or.inl rfl))

/-! ### C5 -/

/-- C5: `needs_output` returns true whenever the include-inactive flag is set,
and with the flag unset it returns true exactly when at least one of the
aggregate's stats maps (translation or review) is non-empty. -/
theorem needs_output_characterization (u : User) :
    u.needs_output true = true
    ∧ (u.needs_output false = true
        ↔ (u.translation_stats ≠ [] ∨ u.review_stats ≠ [])) := by
  refine ⟨rfl, ?_⟩
  unfold User.needs_output
  cases ht : u.translation_stats <;> cases hr : u.review_stats <;> simp

/-- Witness for C5 at a user holding review activity only. -/
theorem needs_output_characterization_witness :
    ((User.init "user-a" "lang-a").read_from_zanata_stats
        reviewOnlyPayload).needs_output false = true :=
  (needs_output_characterization _).2.mpr
    (Or.inr (by decide))

/-! ### C6 -/

/-- C6: the flattened row is exactly ten cells in the order [user id, language,
translation total, translated, needReview, approved, rejected, review total,
review approved, review rejected], every counter read from the stored maps
with a missing key becoming the explicit integer 0, and the header row holds
exactly the ten matching column names. -/
theorem flattened_row_fixed_columns (u : User) :
    User.get_flattened_data_title.length = 10
    ∧ User.get_flattened_data_title
        = ["user_id", "lang", "translation-total", "translated", "needReview",
           "approved", "rejected", "review-total", "review-approved", "review-rejected"]
    ∧ u.convert_to_flattened_data.length = 10
    ∧ u.convert_to_flattened_data
        = [Cell.str u.user_id, Cell.str u.lang,
           Cell.num (lookupD u.translation_stats "total" 0),
           Cell.num (lookupD u.translation_stats "translated" 0),
           Cell.num (lookupD u.translation_stats "needReview" 0),
           Cell.num (lookupD u.translation_stats "approved" 0),
           Cell.num (lookupD u.translation_stats "rejected" 0),
           Cell.num (lookupD u.review_stats "total" 0),
           Cell.num (lookupD u.review_stats "approved" 0),
           Cell.num (lookupD u.review_stats "rejected" 0)]
    ∧ (u.translation_stats = [] → u.review_stats = [] →
        u.convert_to_flattened_data
          = [Cell.str u.user_id, Cell.str u.lang, Cell.num 0, Cell.num 0, Cell.num 0,
             Cell.num 0, Cell.num 0, Cell.num 0, Cell.num 0, Cell.num 0]) := by
  refine ⟨rfl, rfl, rfl, rfl, ?_⟩
  intro h1 h2
  unfold User.convert_to_flattened_data
  rw [h1, h2]
  rfl

/-- Witness for C6 at a fresh user: all eight counters default to zero. -/
theorem flattened_row_fixed_columns_witness :
    (User.init "user-a" "lang-a").convert_to_flattened_data
      = [Cell.str "user-a", Cell.str "lang-a", Cell.num 0, Cell.num 0, Cell.num 0,
         Cell.num 0, Cell.num 0, Cell.num 0, Cell.num 0, Cell.num 0] :=
  (flattened_row_fixed_columns (User.init "user-a" "lang-a")).2.2.2.2 rfl rfl

/-! ### C8 -/

/-- C8: serialization yields a record with exactly the keys user_id, lang,
translation-stats and review-stats, binding the two stat groups unchanged, so
a group with no recorded activity stays an empty mapping instead of being
filled with zero defaults as the flattening contract does. -/
theorem serializable_data_shape (u : User) :
    (u.convert_to_serializable_data).map Prod.fst
        = ["user_id", "lang", "translation-stats", "review-stats"]
    ∧ (u.convert_to_serializable_data).lookup "user_id" = some (SValue.str u.user_id)
    ∧ (u.convert_to_serializable_data).lookup "lang" = some (SValue.str u.lang)
    ∧ (u.convert_to_serializable_data).lookup "translation-stats"
        = some (SValue.map u.translation_stats)
    ∧ (u.convert_to_serializable_data).lookup "review-stats"
        = some (SValue.map u.review_stats)
    ∧ (u.translation_stats = [] →
        (u.convert_to_serializable_data).lookup "translation-stats"
          = some (SValue.map []))
    ∧ (u.review_stats = [] →
        (u.convert_to_serializable_data).lookup "review-stats"
          = some (SValue.map [])) := by
  refine ⟨rfl, ?_, ?_, ?_, ?_, ?_, ?_⟩ <;>
    simp [User.convert_to_serializable_data, List.lookup]

/-- Witness for C8 at a fresh user: both groups serialize as empty mappings. -/
theorem serializable_data_shape_witness :
    ((User.init "user-a" "lang-a").convert_to_serializable_data).lookup "translation-stats"
      = some (SValue.map [])
    ∧ ((User.init "user-a" "lang-a").convert_to_serializable_data).lookup "review-stats"
      = some (SValue.map []) :=
  ⟨(serializable_data_shape (User.init "user-a" "lang-a")).2.2.2.2.2.1 rfl,
   (serializable_data_shape (User.init "user-a" "lang-a")).2.2.2.2.2.2 rfl⟩

/-! ### C7 -/

theorem userLt_iff (a b : User) :
    User.lt a b ↔ (a.lang < b.lang ∨ (a.lang = b.lang ∧ a.user_id < b.user_id)) := by
  unfold User.lt
  by_cases h : a.lang = b.lang
  · simp [h, lt_irrefl]
  · simp [h]

/-- C7: the comparator is a strict total order — irreflexive, transitive, and
trichotomous up to equality of both keys — whose incomparable pairs are exactly
those agreeing on language and user id, and it coincides with the lexicographic
order on (language code, user id); sorting therefore groups each language
contiguously with users ordered by id inside the group. -/
theorem comparator_strict_total_order :
    (∀ a : User, ¬ User.lt a a)
    ∧ (∀ a b c : User, User.lt a b → User.lt b c → User.lt a c)
    ∧ (∀ a b : User,
        User.lt a b ∨ User.lt b a ∨ (a.lang = b.lang ∧ a.user_id = b.user_id))
    ∧ (∀ a b : User, a.lang = b.lang → a.user_id = b.user_id →
        ¬ User.lt a b ∧ ¬ User.lt b a)
    ∧ (∀ a b : User,
        User.lt a b ↔ (a.lang < b.lang ∨ (a.lang = b.lang ∧ a.user_id < b.user_id))) := by
  refine ⟨?_, ?_, ?_, ?_, userLt_iff⟩
  · intro a
    simp [userLt_iff]
  · intro a b c hab hbc
    rw [userLt_iff] at hab hbc ⊢
    rcases hab with h1 | ⟨h1, h1'⟩ <;> rcases hbc with h2 | ⟨h2, h2'⟩
    · exact Or.inl (lt_trans h1 h2)
    · exact Or.inl (h2 ▸ h1)
    · exact Or.inl (h1 ▸ h2)
    · exact Or.inr ⟨h1.trans h2, lt_trans h1' h2'⟩
  · intro a b
    rcases lt_trichotomy a.lang b.lang with h | h | h
    · exact Or.inl ((userLt_iff a b).mpr (Or.inl h))
    · rcases lt_trichotomy a.user_id b.user_id with h' | h' | h'
      · exact Or.inl ((userLt_iff a b).mpr (Or.inr ⟨h, h'⟩))
      · exact Or.inr (Or.inr ⟨h, h'⟩)
      · exact Or.inr (Or.inl ((userLt_iff b a).mpr (Or.inr ⟨h.symm, h'⟩)))
    · exact Or.inr (Or.inl ((userLt_iff b a).mpr (Or.inl h)))
  · intro a b hl hu
    constructor <;> simp [userLt_iff, hl, hu, lt_irrefl]

/-- Witness for C7: transitivity chains a same-language id comparison with a
language comparison at concrete users. -/
theorem comparator_strict_total_order_witness :
    User.lt (User.init "user-a" "lang-x") (User.init "user-a" "lang-y") :=
  comparator_strict_total_order.2.1
    (User.init "user-a" "lang-x")
    (User.init "user-b" "lang-x")
    (User.init "user-a" "lang-y")
    ((userLt_iff _ _).mpr (Or.inr ⟨rfl, by norm_num; decide⟩))
    ((userLt_iff _ _).mpr (Or.inl (by norm_num; decide)))

/-! ### C2 -/

theorem rollupGroup_all_empty (canon : List String) (maps : List StatsMap)
    (h : ∀ m ∈ maps, m = []) : rollupGroup canon maps = [] := by
  unfold rollupGroup
  have hall : maps.all List.isEmpty = true := by
    rw [List.all_eq_true]
    intro m hm
    rw [h m hm]
    rfl
  rw [hall]
  rfl

theorem rollupGroup_not_all_empty (canon : List String) (maps : List StatsMap)
    (h : ∃ m ∈ maps, m ≠ []) :
    rollupGroup canon maps
      = canon.map (fun k => (k, (maps.map (fun m => lookupD m k 0)).sum))
        ++ [("total",
             (canon.map (fun k => (maps.map (fun m => lookupD m k 0)).sum)).sum)] := by
  unfold rollupGroup
  have hall : maps.all List.isEmpty = false := by
    rw [List.all_eq_false]
    obtain ⟨m, hm, hne⟩ := h
    exact ⟨m, hm, by simpa [List.isEmpty_iff] using hne⟩
  rw [hall]
  simp [List.map_map, Function.comp_def]

/-- C2 (spec-modelled): after the rollup the sentinel totals entry is present
and, per stat group, if at least one stored (project, version) scope holds a
non-empty map for the group, the rolled-up group binds exactly the canonical
sub-counters, each to the sum of that counter over all stored scopes (missing
keys contributing zero), followed by a `total` key recomputed as the sum of
those counter sums; if no stored scope holds a non-empty map for the group,
the rolled-up group is the empty mapping. -/
theorem rollup_totals_correct (u : UserAgg) :
    ∃ r, (u.populate_total_stats).totals = some r
    ∧ ((∃ s ∈ u.scopes, s.2.2.translation ≠ []) →
        r.translation.map Prod.fst = canonicalTranslationKeys ++ ["total"]
        ∧ (∀ k ∈ canonicalTranslationKeys,
            r.translation.lookup k
              = some ((u.scopes.map (fun s => lookupD s.2.2.translation k 0)).sum))
        ∧ r.translation.lookup "total"
            = some ((canonicalTranslationKeys.map
                (fun k => (u.scopes.map (fun s => lookupD s.2.2.translation k 0)).sum)).sum))
    ∧ ((∀ s ∈ u.scopes, s.2.2.translation = []) → r.translation = [])
    ∧ ((∃ s ∈ u.scopes, s.2.2.review ≠ []) →
        r.review.map Prod.fst = canonicalReviewKeys ++ ["total"]
        ∧ (∀ k ∈ canonicalReviewKeys,
            r.review.lookup k
              = some ((u.scopes.map (fun s => lookupD s.2.2.review k 0)).sum))
        ∧ r.review.lookup "total"
            = some ((canonicalReviewKeys.map
                (fun k => (u.scopes.map (fun s => lookupD s.2.2.review k 0)).sum)).sum))
    ∧ ((∀ s ∈ u.scopes, s.2.2.review = []) → r.review = []) := by
  refine ⟨u.rolledRecord, rfl, ?_, ?_, ?_, ?_⟩
  · intro h
    obtain ⟨s, hs, hne⟩ := h
    have hx : ∃ m ∈ u.scopes.map (fun s => s.2.2.translation), m ≠ [] :=
      ⟨s.2.2.translation, List.mem_map.mpr ⟨s, hs, rfl⟩, hne⟩
    have hrt : u.rolledRecord.translation
        = canonicalTranslationKeys.map
            (fun k => (k, ((u.scopes.map (fun s => s.2.2.translation)).map
              (fun m => lookupD m k 0)).sum))
          ++ [("total",
               (canonicalTranslationKeys.map
                 (fun k => ((u.scopes.map (fun s => s.2.2.translation)).map
                   (fun m => lookupD m k 0)).sum)).sum)] :=
      rollupGroup_not_all_empty _ _ hx
    rw [hrt]
    refine ⟨?_, ?_, ?_⟩
    · simp [List.map_map, canonicalTranslationKeys]
    · intro k hk
      simp only [canonicalTranslationKeys, List.mem_cons, List.not_mem_nil,
        or_false] at hk
      rcases hk with rfl | rfl | rfl | rfl <;>
        simp [canonicalTranslationKeys, List.lookup, List.map_map, Function.comp_def]
    · simp [canonicalTranslationKeys, List.lookup, List.map_map, Function.comp_def]
  · intro h
    show rollupGroup canonicalTranslationKeys
      (u.scopes.map (fun s => s.2.2.translation)) = []
    apply rollupGroup_all_empty
    intro m hm
    obtain ⟨s, hs, rfl⟩ := List.mem_map.mp hm
    exact h s hs
  · intro h
    obtain ⟨s, hs, hne⟩ := h
    have hx : ∃ m ∈ u.scopes.map (fun s => s.2.2.review), m ≠ [] :=
      ⟨s.2.2.review, List.mem_map.mpr ⟨s, hs, rfl⟩, hne⟩
    have hrr : u.rolledRecord.review
        = canonicalReviewKeys.map
            (fun k => (k, ((u.scopes.map (fun s => s.2.2.review)).map
              (fun m => lookupD m k 0)).sum))
          ++ [("total",
               (canonicalReviewKeys.map
                 (fun k => ((u.scopes.map (fun s => s.2.2.review)).map
                   (fun m => lookupD m k 0)).sum)).sum)] :=
      rollupGroup_not_all_empty _ _ hx
    rw [hrr]
    refine ⟨?_, ?_, ?_⟩
    · simp [List.map_map, canonicalReviewKeys]
    · intro k hk
      simp only [canonicalReviewKeys, List.mem_cons, List.not_mem_nil,
        or_false] at hk
      rcases hk with rfl | rfl <;>
        simp [canonicalReviewKeys, List.lookup, List.map_map, Function.comp_def]
    · simp [canonicalReviewKeys, List.lookup, List.map_map, Function.comp_def]
  · intro h
    show rollupGroup canonicalReviewKeys (u.scopes.map (fun s => s.2.2.review)) = []
    apply rollupGroup_all_empty
    intro m hm
    obtain ⟨s, hs, rfl⟩ := List.mem_map.mp hm
    exact h s hs

/-- Witness for C2 at the aggregate the shipped tests build: the rolled-up
totals match the expected 1963 translation total and 568 review total. -/
theorem rollup_totals_correct_witness :
    ∃ r, (sampleAgg.populate_total_stats).totals = some r
    ∧ r.translation.lookup "total" = some 1963
    ∧ r.translation.lookup "translated" = some 1463
    ∧ r.review.lookup "total" = some 568 := by
  obtain ⟨r, hr, hA, _, hC, _⟩ := rollup_totals_correct sampleAgg
  have hA' := hA ⟨("proj-1", "master",
    { translation :=
        [("translated", 3), ("needReview", 6), ("approved", 27), ("rejected", 1),
         ("total", 37)],
      review := [("approved", 277), ("rejected", 10), ("total", 287)] }),
    by decide, by decide⟩
  have hC' := hC ⟨("proj-1", "master",
    { translation :=
        [("translated", 3), ("needReview", 6), ("approved", 27), ("rejected", 1),
         ("total", 37)],
      review := [("approved", 277), ("rejected", 10), ("total", 287)] }),
    by decide, by decide⟩
  refine ⟨r, hr, ?_, ?_, ?_⟩
  · rw [hA'.2.2]
    decide
  · rw [hA'.2.1 "translated" (by decide)]
    decide
  · rw [hC'.2.2]
    decide
